import Mathlib

/-!
Verification of the metadata core of the `dumpbox` Telegram cloud-storage
bot (`src/bot.py`). TinyDB documents are untyped dictionaries in the
source, so they are embedded as association lists from field names to
values; a TinyDB query `Q.field == v` holds exactly when the document has
the field and it equals `v` (a missing field makes the test false). Both
databases (`files_db`, `folders_db`) are lists of documents in insertion
order; `insert` appends, `search` filters.
-/

/-- Values stored in a TinyDB document: the source only stores strings and
integers in the fields the claims touch. -/
inductive Value
  | vstr : String → Value
  | vint : Int → Value
  deriving DecidableEq

/-- A TinyDB document: an untyped dictionary, embedded as an association
list from field names to values. -/
abbrev Doc := List (String × Value)

/-- A TinyDB table: documents in insertion order. -/
abbrev DB := List Doc

/-- Splitting a character list on the separator character, mirroring
Python's `str.split(sep)`: splitting the empty string yields one empty
segment, and each separator occurrence starts a new segment. -/
def splitSegs : List Char → List (List Char)
  | [] => [[]]
  | c :: r =>
    if c = '/' then [] :: splitSegs r
    else
      match splitSegs r with
      | [] => [[c]]
      | s :: ss => (c :: s) :: ss

/-- Python `file_path.split('/')[-1]` from `download_file` (bot.py:77):
the last segment of the Telegram file path. -/
def originalFilename (filePath : String) : String :=
  String.mk ((splitSegs filePath.data).getLastD [])

/-- Python `f"{timestamp}_{original_filename}"` (bot.py:83). -/
def localFilename (timestamp original : String) : String :=
  timestamp ++ "_" ++ original

/-- The file-metadata document built by `FileManager.download_file`
(bot.py:92-101). The keys are exactly those the source writes; note the
source stores the local filesystem `path` and no `folder` field. -/
def fileMetadata (fileId : String) (userId : Int) (filePath mimeType : String)
    (size : Int) (timestamp uploadedAt : String) : Doc :=
  let original := originalFilename filePath
  let localName := localFilename timestamp original
  [("file_id", Value.vstr fileId),
   ("name", Value.vstr localName),
   ("original_name", Value.vstr original),
   ("path", Value.vstr ("storage/" ++ toString userId ++ "/" ++ localName)),
   ("user_id", Value.vint userId),
   ("size", Value.vint size),
   ("mime_type", Value.vstr mimeType),
   ("uploaded_at", Value.vstr uploadedAt)]

/-- `FileManager.download_file` (bot.py:60-106), success path: the byte
transfer is external; the metadata logic builds the document and inserts
it into `files_db`. `timestamp` and `uploadedAt` stand for the two
`datetime.now()` readings; `size` is the byte count written. Returns the
metadata and the updated `files_db`. -/
def downloadFile (fileId : String) (userId : Int) (filePath mimeType : String)
    (size : Int) (timestamp uploadedAt : String) (filesDb : DB) : Doc × DB :=
  let m := fileMetadata fileId userId filePath mimeType size timestamp uploadedAt
  (m, filesDb ++ [m])

/-- `FileManager.list_user_files` (bot.py:112-128): search `files_db` for
`File.user_id == user_id  and  File.folder == folder_path`. -/
def listUserFiles (userId : Int) (folderPath : String) (filesDb : DB) : List Doc :=
  filesDb.filter (fun d =>
    decide (List.lookup "user_id" d = some (Value.vint userId)) &&
    decide (List.lookup "folder" d = some (Value.vstr folderPath)))

/-- `FileManager.list_user_folders` (bot.py:130-146): search `folders_db`
for `Folder.user_id == user_id  and  Folder.parent == parent_folder`. -/
def listUserFolders (userId : Int) (parentFolder : String) (foldersDb : DB) : List Doc :=
  foldersDb.filter (fun d =>
    decide (List.lookup "user_id" d = some (Value.vint userId)) &&
    decide (List.lookup "parent" d = some (Value.vstr parentFolder)))

/-- Error outcome of `TelegramCloudStorageBot.create_folder`: the
"already exists" reply (bot.py:273-277). -/
inductive FolderError
  | folderExists
  deriving DecidableEq

/-- The duplicate-check predicate of `create_folder` (bot.py:267-271):
`Folder.name == folder_name  and  Folder.user_id == user_id`. The
source's query does not mention the `parent` field. -/
def folderQuery (userId : Int) (folderName : String) (d : Doc) : Bool :=
  decide (List.lookup "name" d = some (Value.vstr folderName)) &&
  decide (List.lookup "user_id" d = some (Value.vint userId))

/-- The folder document inserted by `create_folder` (bot.py:280-285):
the `parent` field is always the literal `'/'`. -/
def folderDoc (userId : Int) (folderName createdAt : String) : Doc :=
  [("name", Value.vstr folderName),
   ("user_id", Value.vint userId),
   ("parent", Value.vstr "/"),
   ("created_at", Value.vstr createdAt)]

/-- `TelegramCloudStorageBot.create_folder` (bot.py:257-295), with a
folder name present: search for an existing folder with the same name and
user; if found reply "already exists", otherwise insert the new folder
document. `createdAt` stands for the `datetime.now()` reading. -/
def createFolder (userId : Int) (folderName createdAt : String) (foldersDb : DB) :
    Except FolderError (Doc × DB) :=
  let existing := foldersDb.filter (folderQuery userId folderName)
  if existing.isEmpty then
    Except.ok (folderDoc userId folderName createdAt,
               foldersDb ++ [folderDoc userId folderName createdAt])
  else
    Except.error FolderError.folderExists

/-- Repeating `create_folder` with identical arguments: the number of
successes, the number of `FolderExists` errors, and the final store after
running the call the given number of times in sequence. -/
def runCreates (userId : Int) (folderName createdAt : String) :
    Nat → DB → Nat × Nat × DB
  | 0, db => (0, 0, db)
  | n + 1, db =>
    match createFolder userId folderName createdAt db with
    | Except.ok (_, db') =>
      let r := runCreates userId folderName createdAt n db'
      (r.1 + 1, r.2.1, r.2.2)
    | Except.error _ =>
      let r := runCreates userId folderName createdAt n db
      (r.1, r.2.1 + 1, r.2.2)

/-- Running a sequence of `create_folder` requests `(user, name, created_at)`
against a folder store, keeping the store unchanged on the error path. -/
def applyCreates : List (Int × String × String) → DB → DB
  | [], db => db
  | (u, n, t) :: rest, db =>
    match createFolder u n t db with
    | Except.ok (_, db') => applyCreates rest db'
    | Except.error _ => applyCreates rest db

/-- Modelled from the spec: error of the Path Resolver (spec section 4.2);
the repository contains no path-normalization code. -/
inductive PathError
  | invalidPath
  deriving DecidableEq

/-- Modelled from the spec: strip one leading and one trailing slash from
the raw path characters, so that absolute, trailing-slash and relative
spellings of the same path share one segment decomposition. -/
def stripSlashes (l : List Char) : List Char :=
  let r := if l.head? = some '/' then l.tail else l
  if r.getLast? = some '/' then r.dropLast else r

/-- Modelled from the spec: glue segments back together with `'/'`
separators. -/
def joinSegs : List (List Char) → List Char
  | [] => []
  | [s] => s
  | s :: ss => s ++ '/' :: joinSegs ss

/-- Modelled from the spec (section 4.2, absent from the source): the Path
Resolver. Root maps to itself; otherwise the raw path, with one leading
and one trailing slash tolerated, is split on `'/'`; an empty segment or
a `".."` segment (which would escape the root) is `InvalidPath`; the
result is the segments rejoined under a single leading slash. -/
def normalizePathChars (raw : List Char) : Except PathError (List Char) :=
  if raw = ['/'] then Except.ok ['/']
  else
    let segs := splitSegs (stripSlashes raw)
    if segs.any (fun s => s.isEmpty || decide (s = ['.', '.'])) then
      Except.error PathError.invalidPath
    else
      Except.ok ('/' :: joinSegs segs)

/-- Modelled from the spec: the Path Resolver on strings. -/
def normalizePath (raw : String) : Except PathError String :=
  (normalizePathChars raw.data).map String.mk

/-! Helper lemmas about segment splitting and joining. -/

/-- Splitting always yields at least one segment. -/
theorem splitSegs_ne_nil : ∀ l : List Char, splitSegs l ≠ []
  | [] => by simp [splitSegs]
  | c :: r => by
    simp only [splitSegs]
    split
    · simp
    · split <;> simp

/-- No segment produced by splitting contains the separator. -/
theorem not_slash_mem_splitSegs : ∀ l s : List Char, s ∈ splitSegs l → '/' ∉ s := by
  intro l
  induction l with
  | nil =>
    intro s hs
    simp only [splitSegs, List.mem_singleton] at hs
    subst hs
    simp
  | cons c r ih =>
    intro s hs
    simp only [splitSegs] at hs
    by_cases hc : c = '/'
    · rw [if_pos hc] at hs
      rcases List.mem_cons.mp hs with h | h
      · subst h; simp
      · exact ih s h
    · rw [if_neg hc] at hs
      cases hsr : splitSegs r with
      | nil => exact absurd hsr (splitSegs_ne_nil r)
      | cons s0 ss =>
        rw [hsr] at hs
        rcases List.mem_cons.mp hs with h | h
        · subst h
          intro hmem
          rcases List.mem_cons.mp hmem with h1 | h1
          · exact hc h1.symm
          · exact ih s0 (by rw [hsr]; exact List.mem_cons_self s0 ss) h1
        · exact ih s (by rw [hsr]; exact List.mem_cons_of_mem s0 h)

/-- A separator-free character list splits into exactly itself. -/
theorem splitSegs_eq_single : ∀ s : List Char, '/' ∉ s → splitSegs s = [s]
  | [], _ => by simp [splitSegs]
  | c :: r, h => by
    have hc : c ≠ '/' := fun hh => h (hh ▸ List.mem_cons_self c r)
    have hr : '/' ∉ r := fun hh => h (List.mem_cons_of_mem c hh)
    simp only [splitSegs, if_neg hc, splitSegs_eq_single r hr]

/-- Splitting a list that starts with a separator-free prefix followed by
a separator peels off that prefix as the first segment. -/
theorem splitSegs_append_slash : ∀ s t : List Char, '/' ∉ s →
    splitSegs (s ++ '/' :: t) = s :: splitSegs t
  | [], t, _ => by simp [splitSegs]
  | c :: r, t, h => by
    have hc : c ≠ '/' := fun hh => h (hh ▸ List.mem_cons_self c r)
    have hr : '/' ∉ r := fun hh => h (List.mem_cons_of_mem c hh)
    simp only [List.cons_append, splitSegs, if_neg hc, List.append_eq,
      splitSegs_append_slash r t hr]

/-- Splitting undoes joining for a nonempty list of separator-free
segments. -/
theorem splitSegs_joinSegs : ∀ segs : List (List Char), segs ≠ [] →
    (∀ s ∈ segs, '/' ∉ s) → splitSegs (joinSegs segs) = segs
  | [], h, _ => absurd rfl h
  | [s], _, hs => by
    simp only [joinSegs]
    exact splitSegs_eq_single s (hs s (List.mem_singleton_self s))
  | s :: s2 :: ss, _, hs => by
    have h1 : '/' ∉ s := hs s (List.mem_cons_self s (s2 :: ss))
    show splitSegs (s ++ '/' :: joinSegs (s2 :: ss)) = s :: s2 :: ss
    rw [splitSegs_append_slash s (joinSegs (s2 :: ss)) h1]
    rw [splitSegs_joinSegs (s2 :: ss) (List.cons_ne_nil s2 ss)
      (fun x hx => hs x (List.mem_cons_of_mem s hx))]

/-- Joining a nonempty list of nonempty separator-free segments yields a
nonempty list that does not end in the separator. -/
theorem joinSegs_getLast_ne_slash : ∀ segs : List (List Char), segs ≠ [] →
    (∀ s ∈ segs, s ≠ [] ∧ '/' ∉ s) →
    joinSegs segs ≠ [] ∧ (joinSegs segs).getLast? ≠ some '/'
  | [], h, _ => absurd rfl h
  | [s], _, hs => by
    obtain ⟨hne, hsl⟩ := hs s (List.mem_singleton_self s)
    refine ⟨by simpa [joinSegs] using hne, ?_⟩
    simp only [joinSegs]
    intro hlast
    obtain ⟨_, hx⟩ := List.mem_getLast?_eq_getLast hlast
    exact hsl (hx ▸ List.getLast_mem _)
  | s :: s2 :: ss, _, hs => by
    obtain ⟨ihne, ihlast⟩ := joinSegs_getLast_ne_slash (s2 :: ss) (List.cons_ne_nil s2 ss)
      (fun x hx => hs x (List.mem_cons_of_mem s hx))
    have hj : joinSegs (s :: s2 :: ss) = s ++ '/' :: joinSegs (s2 :: ss) := rfl
    constructor
    · rw [hj]; simp
    · rw [hj, List.getLast?_append_cons]
      cases hcase : joinSegs (s2 :: ss) with
      | nil => exact absurd hcase ihne
      | cons x xs =>
        rw [List.getLast?_cons_cons]
        rw [hcase] at ihlast
        exact ihlast

/-! Helper lemmas about `create_folder`. -/

/-- When no folder of the same name and owner is stored, `create_folder`
inserts and returns the new folder document. -/
theorem createFolder_ok_of_no_dup (uid : Int) (name t : String) (db : DB)
    (h : ∀ d ∈ db, ¬(List.lookup "name" d = some (Value.vstr name) ∧
        List.lookup "user_id" d = some (Value.vint uid))) :
    createFolder uid name t db =
      Except.ok (folderDoc uid name t, db ++ [folderDoc uid name t]) := by
  have hfil : db.filter (folderQuery uid name) = [] := by
    refine List.filter_eq_nil_iff.mpr ?_
    intro d hd
    simp only [folderQuery, Bool.and_eq_true, decide_eq_true_eq]
    exact fun hcon => h d hd hcon
  unfold createFolder
  rw [hfil]
  rfl

/-- When some stored folder has the same name and owner, `create_folder`
reports `FolderExists`. -/
theorem createFolder_error_of_dup (uid : Int) (name t : String) (db : DB)
    (h : ∃ d ∈ db, List.lookup "name" d = some (Value.vstr name) ∧
        List.lookup "user_id" d = some (Value.vint uid)) :
    createFolder uid name t db = Except.error FolderError.folderExists := by
  obtain ⟨d, hd, h1, h2⟩ := h
  have hmem : d ∈ db.filter (folderQuery uid name) :=
    List.mem_filter.mpr ⟨hd, by simp [folderQuery, h1, h2]⟩
  have hne : (db.filter (folderQuery uid name)).isEmpty = false := by
    simp only [List.isEmpty_eq_false]
    exact List.ne_nil_of_mem hmem
  unfold createFolder
  simp only [hne, Bool.false_eq_true, if_false]

/-- A successful `create_folder` returns exactly the inserted folder
document, appends it to the store, and implies the duplicate query was
empty. -/
theorem createFolder_ok_shape (uid : Int) (name t : String) (db : DB) (r : Doc) (db' : DB)
    (h : createFolder uid name t db = Except.ok (r, db')) :
    r = folderDoc uid name t ∧ db' = db ++ [folderDoc uid name t] ∧
    db.filter (folderQuery uid name) = [] := by
  unfold createFolder at h
  by_cases hemp : (db.filter (folderQuery uid name)).isEmpty
  · rw [if_pos hemp] at h
    simp only [Except.ok.injEq, Prod.mk.injEq] at h
    exact ⟨h.1.symm, h.2.symm, List.isEmpty_iff.mp hemp⟩
  · rw [if_neg hemp] at h
    exact absurd h (by simp)

/-- Once a matching folder is stored, every further identical
`create_folder` call fails and leaves the store unchanged. -/
theorem runCreates_dup (uid : Int) (name t : String) (db : DB)
    (h : ∃ d ∈ db, List.lookup "name" d = some (Value.vstr name) ∧
        List.lookup "user_id" d = some (Value.vint uid)) :
    ∀ n, runCreates uid name t n db = (0, n, db) := by
  intro n
  induction n with
  | zero => rfl
  | succ k ih =>
    simp only [runCreates, createFolder_error_of_dup uid name t db h, ih]

/-- `applyCreates` preserves the invariant that every stored folder
document has `parent` equal to the root path. -/
theorem applyCreates_parent_all :
    ∀ (reqs : List (Int × String × String)) (db : DB),
    db.all (fun d => decide (List.lookup "parent" d = some (Value.vstr "/"))) = true →
    (applyCreates reqs db).all
      (fun d => decide (List.lookup "parent" d = some (Value.vstr "/"))) = true
  | [], _, h => h
  | (u, n, t) :: rest, db, h => by
    simp only [applyCreates]
    cases hc : createFolder u n t db with
    | error e => exact applyCreates_parent_all rest db h
    | ok p =>
      obtain ⟨r, db'⟩ := p
      obtain ⟨_, hdb', _⟩ := createFolder_ok_shape u n t db r db' hc
      subst hdb'
      apply applyCreates_parent_all rest
      simp only [List.all_append, h, Bool.true_and]
      rfl

/-- Shape of every successful Path Resolver output: root, or a
slash-led path with no trailing slash and only good segments. -/
theorem normalizePath_ok_shape :
    ∀ (raw p : String), normalizePath raw = Except.ok p →
    p = "/" ∨ (p.data.head? = some '/' ∧ p.data.getLast? ≠ some '/' ∧
      (splitSegs (p.data.drop 1)).all
        (fun s => !s.isEmpty && !decide (s = ['.', '.'])) = true) := by
  intro raw p h
  unfold normalizePath at h
  cases hn : normalizePathChars raw.data with
  | error e =>
    rw [hn] at h
    exact absurd h (by simp [Except.map])
  | ok l =>
    rw [hn] at h
    simp only [Except.map, Except.ok.injEq] at h
    subst h
    unfold normalizePathChars at hn
    by_cases hroot : raw.data = ['/']
    · rw [if_pos hroot] at hn
      simp only [Except.ok.injEq] at hn
      left
      rw [← hn]
    · rw [if_neg hroot] at hn
      by_cases hbad : (splitSegs (stripSlashes raw.data)).any
          (fun s => s.isEmpty || decide (s = ['.', '.'])) = true
      · rw [if_pos hbad] at hn
        exact absurd hn (by simp)
      · rw [if_neg hbad] at hn
        simp only [Except.ok.injEq] at hn
        right
        subst hn
        have hne : splitSegs (stripSlashes raw.data) ≠ [] :=
          splitSegs_ne_nil (stripSlashes raw.data)
        have hnoslash : ∀ s ∈ splitSegs (stripSlashes raw.data), '/' ∉ s :=
          fun s hs => not_slash_mem_splitSegs (stripSlashes raw.data) s hs
        have hgood : ∀ s ∈ splitSegs (stripSlashes raw.data), s ≠ [] ∧ s ≠ ['.', '.'] := by
          intro s hs
          constructor
          · intro hh
            apply hbad
            rw [List.any_eq_true]
            exact ⟨s, hs, by simp [hh]⟩
          · intro hh
            apply hbad
            rw [List.any_eq_true]
            exact ⟨s, hs, by simp [hh]⟩
        refine ⟨rfl, ?_, ?_⟩
        · obtain ⟨hjne, hjlast⟩ := joinSegs_getLast_ne_slash
            (splitSegs (stripSlashes raw.data)) hne
            (fun s hs => ⟨(hgood s hs).1, hnoslash s hs⟩)
          show ('/' :: joinSegs (splitSegs (stripSlashes raw.data))).getLast? ≠ some '/'
          cases hjcase : joinSegs (splitSegs (stripSlashes raw.data)) with
          | nil => exact absurd hjcase hjne
          | cons x xs =>
            rw [List.getLast?_cons_cons]
            rw [hjcase] at hjlast
            exact hjlast
        · show (splitSegs (('/' :: joinSegs (splitSegs (stripSlashes raw.data))).drop 1)).all _ = true
          rw [List.drop_succ_cons, List.drop_zero,
            splitSegs_joinSegs (splitSegs (stripSlashes raw.data)) hne hnoslash,
            List.all_eq_true]
          intro s hs
          obtain ⟨h1, h2⟩ := hgood s hs
          simp [h1, h2]

/-- Any raw path other than root whose stripped segment decomposition
contains an empty or parent-escaping segment is rejected. -/
theorem normalizePath_error_of_bad (raw : String) (hroot : raw ≠ "/")
    (hbad : (splitSegs (stripSlashes raw.data)).any
      (fun s => s.isEmpty || decide (s = ['.', '.'])) = true) :
    normalizePath raw = Except.error PathError.invalidPath := by
  have hdata : raw.data ≠ ['/'] := by
    intro hh
    exact hroot (String.ext hh)
  unfold normalizePath normalizePathChars
  rw [if_neg hdata]
  simp only [hbad, if_true]
  rfl

/-! The claims. -/

/-- C1: the claim states that a file record inserted by a successful
download is included in a subsequent listing of its folder by the same
owner. The code inserts metadata without any `folder` field while
`list_user_files` filters on `File.folder`, so an uploaded file never
appears in any listing: inserting leaves every listing unchanged, and at
the concrete failing input (user 42 uploads `cat.png`, then lists `/`)
the store holds one record yet the listing is empty. -/
theorem claim1_uploaded_file_never_listed :
    (∀ (fid : String) (uid : Int) (fp mt : String) (sz : Int) (ts ua : String)
        (db : DB) (u : Int) (p : String),
      listUserFiles u p (downloadFile fid uid fp mt sz ts ua db).2 =
        listUserFiles u p db) ∧
    ((downloadFile "f1" 42 "documents/cat.png" "image/png" 1024 "20240101_120000"
        "2024-01-01T12:00:00" []).2).length = 1 ∧
    listUserFiles 42 "/" (downloadFile "f1" 42 "documents/cat.png" "image/png" 1024
        "20240101_120000" "2024-01-01T12:00:00" []).2 = [] := by
  refine ⟨?_, rfl, rfl⟩
  intro fid uid fp mt sz ts ua db u p
  show listUserFiles u p (db ++ [fileMetadata fid uid fp mt sz ts ua]) = listUserFiles u p db
  unfold listUserFiles
  rw [List.filter_append]
  have hm : List.lookup "folder" (fileMetadata fid uid fp mt sz ts ua) = none := rfl
  simp [hm]

/-- C2 counterexample: the claim states that a folder with the same name
under a different parent for the same owner does not trigger
`FolderExists`. With a stored folder named `docs` under parent `/photos`
for owner 1, `create_folder` for owner 1 and name `docs` (implicit
parent `/`) nevertheless fails, because the duplicate query tests only
name and owner. -/
theorem claim2_counterexample :
    createFolder 1 "docs" "t1"
      [[("name", Value.vstr "docs"), ("user_id", Value.vint 1),
        ("parent", Value.vstr "/photos"), ("created_at", Value.vstr "t0")]] =
      Except.error FolderError.folderExists := rfl

/-- C2 amended: `create_folder` fails with `FolderExists` exactly when
some stored folder has the same name and owner, regardless of its
parent; on the non-duplicate branch the new FolderRecord (with parent
`/`) is inserted and returned. -/
theorem claim2_amended_duplicate_check_ignores_parent :
    ∀ (uid : Int) (name t : String) (db : DB),
      ((∃ d ∈ db, List.lookup "name" d = some (Value.vstr name) ∧
          List.lookup "user_id" d = some (Value.vint uid)) →
        createFolder uid name t db = Except.error FolderError.folderExists) ∧
      ((∀ d ∈ db, ¬(List.lookup "name" d = some (Value.vstr name) ∧
          List.lookup "user_id" d = some (Value.vint uid))) →
        createFolder uid name t db =
          Except.ok (folderDoc uid name t, db ++ [folderDoc uid name t])) :=
  fun uid name t db =>
    ⟨createFolder_error_of_dup uid name t db, createFolder_ok_of_no_dup uid name t db⟩

/-- Witness for C2 amended at concrete inputs: owner 1 re-creating
`docs` fails; owner 2 creating `docs` over an empty store succeeds. -/
theorem claim2_witness :
    createFolder 1 "docs" "t1" [folderDoc 1 "docs" "t0"] =
      Except.error FolderError.folderExists ∧
    createFolder 2 "docs" "t1" [] =
      Except.ok (folderDoc 2 "docs" "t1", [folderDoc 2 "docs" "t1"]) :=
  ⟨(claim2_amended_duplicate_check_ignores_parent 1 "docs" "t1" [folderDoc 1 "docs" "t0"]).1
      ⟨folderDoc 1 "docs" "t0", List.mem_singleton_self _, rfl, rfl⟩,
   (claim2_amended_duplicate_check_ignores_parent 2 "docs" "t1" []).2
      (by simp)⟩

/-- C3 counterexample: the claim states that registering a file under a
folder path that does not exist always fails with `FolderNotFound` and
creates no FileRecord. With an empty folder store (so no folder exists at
all), the download path still succeeds and inserts one FileRecord; the
code defines no `FolderNotFound` outcome. -/
theorem claim3_counterexample :
    ((downloadFile "f9" 7 "photos/cat.png" "image/png" 5 "20240101_130000"
        "2024-01-01T13:00:00" []).2).length = 1 := rfl

/-- C3 amended: `download_file` performs no folder validation at all: it
takes no folder path, cannot fail with `FolderNotFound`, and on every
successful byte transfer appends exactly the returned FileRecord to the
file store. -/
theorem claim3_amended_no_folder_validation :
    ∀ (fid : String) (uid : Int) (fp mt : String) (sz : Int) (ts ua : String) (db : DB),
      (downloadFile fid uid fp mt sz ts ua db).2 =
        db ++ [(downloadFile fid uid fp mt sz ts ua db).1] :=
  fun _ _ _ _ _ _ _ _ => rfl

/-- C4: the claim states two uploads with the same original name always
receive distinct stored names. The stored name is the second-resolution
timestamp joined to the original name, so two uploads of `cat.png`
within the same second (timestamp `20240101_120000`) both receive the
stored name `20240101_120000_cat.png`; the two records are still both
inserted (no overwrite) and both keep original_name `cat.png`. -/
theorem claim4_same_second_name_collision :
    List.lookup "name" (downloadFile "f1" 7 "documents/cat.png" "image/png" 10
        "20240101_120000" "u1" []).1 = some (Value.vstr "20240101_120000_cat.png") ∧
    List.lookup "name" (downloadFile "f2" 7 "documents/cat.png" "image/png" 12
        "20240101_120000" "u2" (downloadFile "f1" 7 "documents/cat.png" "image/png" 10
          "20240101_120000" "u1" []).2).1 = some (Value.vstr "20240101_120000_cat.png") ∧
    ((downloadFile "f2" 7 "documents/cat.png" "image/png" 12
        "20240101_120000" "u2" (downloadFile "f1" 7 "documents/cat.png" "image/png" 10
          "20240101_120000" "u1" []).2).2).length = 2 ∧
    List.lookup "original_name" (downloadFile "f1" 7 "documents/cat.png" "image/png" 10
        "20240101_120000" "u1" []).1 = some (Value.vstr "cat.png") ∧
    List.lookup "original_name" (downloadFile "f2" 7 "documents/cat.png" "image/png" 12
        "20240101_120000" "u2" (downloadFile "f1" 7 "documents/cat.png" "image/png" 10
          "20240101_120000" "u1" []).2).1 = some (Value.vstr "cat.png") :=
  ⟨rfl, rfl, rfl, rfl, rfl⟩

/-- C5: from any store holding no folder with the given name for the
given owner, a `create_folder` call succeeds and an immediately repeated
identical call fails with `FolderExists`: the duplicate attempt is
rejected, not silently merged. -/
theorem claim5_duplicate_rejected :
    ∀ (uid : Int) (name t1 t2 : String) (db : DB),
      (∀ d ∈ db, ¬(List.lookup "name" d = some (Value.vstr name) ∧
          List.lookup "user_id" d = some (Value.vint uid))) →
      createFolder uid name t1 db =
        Except.ok (folderDoc uid name t1, db ++ [folderDoc uid name t1]) ∧
      createFolder uid name t2 (db ++ [folderDoc uid name t1]) =
        Except.error FolderError.folderExists := by
  intro uid name t1 t2 db h
  refine ⟨createFolder_ok_of_no_dup uid name t1 db h, ?_⟩
  exact createFolder_error_of_dup uid name t2 (db ++ [folderDoc uid name t1])
    ⟨folderDoc uid name t1,
     List.mem_append_right db (List.mem_singleton_self _), rfl, rfl⟩

/-- Witness for C5: owner 42 creates `Photos` twice over an empty store;
the first call succeeds, the second fails. -/
theorem claim5_witness :
    createFolder 42 "Photos" "t1" [] =
      Except.ok (folderDoc 42 "Photos" "t1", [] ++ [folderDoc 42 "Photos" "t1"]) ∧
    createFolder 42 "Photos" "t2" ([] ++ [folderDoc 42 "Photos" "t1"]) =
      Except.error FolderError.folderExists :=
  claim5_duplicate_rejected 42 "Photos" "t1" "t2" [] (by simp)

/-- C6: after every successful `create_folder`, listing the parent the
record was stored under (the root, the only parent the code ever
writes) includes the created folder document, and exactly one listed
document carries the created name. -/
theorem claim6_created_folder_listed_once :
    ∀ (uid : Int) (name t : String) (db : DB) (r : Doc) (db' : DB),
      createFolder uid name t db = Except.ok (r, db') →
      r ∈ listUserFolders uid "/" db' ∧
      ((listUserFolders uid "/" db').filter
        (fun d => decide (List.lookup "name" d = some (Value.vstr name)))).length = 1 := by
  intro uid name t db r db' h
  obtain ⟨hr, hdb', hfil⟩ := createFolder_ok_shape uid name t db r db' h
  subst hr
  subst hdb'
  have hu : List.lookup "user_id" (folderDoc uid name t) = some (Value.vint uid) := rfl
  have hp : List.lookup "parent" (folderDoc uid name t) = some (Value.vstr "/") := rfl
  have hfd : (fun d => decide (List.lookup "user_id" d = some (Value.vint uid)) &&
      decide (List.lookup "parent" d = some (Value.vstr "/"))) (folderDoc uid name t) = true := by
    simp [hu, hp]
  constructor
  · unfold listUserFolders
    rw [List.filter_append]
    refine List.mem_append_right _ ?_
    rw [List.mem_filter]
    exact ⟨List.mem_singleton_self _, hfd⟩
  · unfold listUserFolders
    rw [List.filter_append, List.filter_append]
    have hleft : ((db.filter (fun d =>
        decide (List.lookup "user_id" d = some (Value.vint uid)) &&
        decide (List.lookup "parent" d = some (Value.vstr "/")))).filter
          (fun d => decide (List.lookup "name" d = some (Value.vstr name)))) = [] := by
      refine List.filter_eq_nil_iff.mpr ?_
      intro d hd
      obtain ⟨hdb, hpred⟩ := List.mem_filter.mp hd
      simp only [Bool.and_eq_true, decide_eq_true_eq] at hpred
      simp only [decide_eq_true_eq]
      intro hname
      have : d ∈ db.filter (folderQuery uid name) := by
        rw [List.mem_filter]
        refine ⟨hdb, ?_⟩
        simp only [folderQuery, Bool.and_eq_true, decide_eq_true_eq]
        exact ⟨hname, hpred.1⟩
      rw [hfil] at this
      exact absurd this (List.not_mem_nil d)
    rw [hleft]
    have hn : List.lookup "name" (folderDoc uid name t) = some (Value.vstr name) := rfl
    have hone : List.filter (fun d =>
        decide (List.lookup "user_id" d = some (Value.vint uid)) &&
        decide (List.lookup "parent" d = some (Value.vstr "/")))
          [folderDoc uid name t] = [folderDoc uid name t] := by
      simp [hu, hp]
    have htwo : List.filter (fun d => decide (List.lookup "name" d = some (Value.vstr name)))
        [folderDoc uid name t] = [folderDoc uid name t] := by
      simp [hn]
    rw [hone, htwo]
    rfl

/-- Witness for C6: owner 42 creates `Photos` over an empty store and the
root listing contains it exactly once. -/
theorem claim6_witness :
    folderDoc 42 "Photos" "t" ∈ listUserFolders 42 "/" ([] ++ [folderDoc 42 "Photos" "t"]) ∧
    ((listUserFolders 42 "/" ([] ++ [folderDoc 42 "Photos" "t"])).filter
      (fun d => decide (List.lookup "name" d = some (Value.vstr "Photos")))).length = 1 :=
  claim6_created_folder_listed_once 42 "Photos" "t" [] (folderDoc 42 "Photos" "t")
    ([] ++ [folderDoc 42 "Photos" "t"]) rfl

/-- C7 (spec-modelled Path Resolver; the source has none): `"/docs/"`,
`"/docs"` and `"docs"` all normalize to `"/docs"`; every successful
result is the root or starts with a slash, does not end with a slash and
has no empty or `".."` segments; and a non-root raw path whose stripped
decomposition has an empty or `".."` segment — in particular `""`,
`"/a//b"`, `"/../x"` and `".."` — is rejected with `InvalidPath`. -/
theorem claim7_path_normalization :
    (normalizePath "/docs/" = Except.ok "/docs" ∧
      normalizePath "/docs" = Except.ok "/docs" ∧
      normalizePath "docs" = Except.ok "/docs") ∧
    (∀ raw p, normalizePath raw = Except.ok p →
      p = "/" ∨ (p.data.head? = some '/' ∧ p.data.getLast? ≠ some '/' ∧
        (splitSegs (p.data.drop 1)).all
          (fun s => !s.isEmpty && !decide (s = ['.', '.'])) = true)) ∧
    (∀ raw : String, raw ≠ "/" →
      (splitSegs (stripSlashes raw.data)).any
        (fun s => s.isEmpty || decide (s = ['.', '.'])) = true →
      normalizePath raw = Except.error PathError.invalidPath) ∧
    (normalizePath "" = Except.error PathError.invalidPath ∧
      normalizePath "/a//b" = Except.error PathError.invalidPath ∧
      normalizePath "/../x" = Except.error PathError.invalidPath ∧
      normalizePath ".." = Except.error PathError.invalidPath) :=
  ⟨⟨rfl, rfl, rfl⟩, normalizePath_ok_shape, normalizePath_error_of_bad,
   rfl, rfl, rfl, rfl⟩

/-- Witness for C7 at concrete inputs: the shape clause at `"/docs"` and
the rejection clause at `"a//b"`. -/
theorem claim7_witness :
    (("/docs" : String) = "/" ∨ (("/docs" : String).data.head? = some '/' ∧
      ("/docs" : String).data.getLast? ≠ some '/' ∧
      (splitSegs (("/docs" : String).data.drop 1)).all
        (fun s => !s.isEmpty && !decide (s = ['.', '.'])) = true)) ∧
    normalizePath "a//b" = Except.error PathError.invalidPath :=
  ⟨claim7_path_normalization.2.1 "/docs" "/docs" rfl,
   claim7_path_normalization.2.2.1 "a//b" (by decide) rfl⟩

/-- C8: the bot dispatches updates sequentially (no `concurrent_updates`
is configured and no `await` separates the duplicate check from the
insert), so N overlapping `create_folder` submissions with identical
owner and name execute as N consecutive calls: from any store with no
matching folder, exactly one call succeeds and the other N-1 report
`FolderExists`, and the store gains exactly the one new record. -/
theorem claim8_serialized_creates_one_success :
    ∀ (n : Nat) (uid : Int) (name t : String) (db : DB),
      1 ≤ n →
      (∀ d ∈ db, ¬(List.lookup "name" d = some (Value.vstr name) ∧
          List.lookup "user_id" d = some (Value.vint uid))) →
      runCreates uid name t n db = (1, n - 1, db ++ [folderDoc uid name t]) := by
  intro n uid name t db hn h
  obtain ⟨m, rfl⟩ : ∃ m, n = m + 1 := ⟨n - 1, (Nat.succ_pred_eq_of_pos hn).symm⟩
  simp only [runCreates, createFolder_ok_of_no_dup uid name t db h]
  rw [runCreates_dup uid name t (db ++ [folderDoc uid name t])
    ⟨folderDoc uid name t, List.mem_append_right db (List.mem_singleton_self _), rfl, rfl⟩ m]
  simp

/-- Witness for C8: three identical creations of `Photos` for owner 42
over an empty store yield one success and two `FolderExists` errors. -/
theorem claim8_witness :
    runCreates 42 "Photos" "t" 3 [] = (1, 3 - 1, [] ++ [folderDoc 42 "Photos" "t"]) :=
  claim8_serialized_creates_one_success 3 42 "Photos" "t" [] (by decide) (by simp)

/-- C9 (implicit): every folder document in a store produced by any
sequence of `create_folder` requests from the empty store has its
`parent` field equal to `/`: the implementation yields a flat hierarchy
regardless of any parent the caller intended. -/
theorem claim9_all_folders_parent_root :
    ∀ reqs : List (Int × String × String),
      (applyCreates reqs []).all
        (fun d => decide (List.lookup "parent" d = some (Value.vstr "/"))) = true :=
  fun reqs => applyCreates_parent_all reqs [] rfl

/-- C10 (implicit): owner isolation of listings. Every document returned
by `list_user_files` or `list_user_folders` for owner `u` carries
`user_id = u`, and inserting a record owned by a different user `v`
leaves both of `u`'s listings unchanged. -/
theorem claim10_owner_isolation :
    ∀ (u v : Int) (p : String) (fdb gdb : DB) (df dg : Doc),
      u ≠ v →
      List.lookup "user_id" df = some (Value.vint v) →
      List.lookup "user_id" dg = some (Value.vint v) →
      (listUserFiles u p fdb).all
        (fun d => decide (List.lookup "user_id" d = some (Value.vint u))) = true ∧
      (listUserFolders u p gdb).all
        (fun d => decide (List.lookup "user_id" d = some (Value.vint u))) = true ∧
      listUserFiles u p (fdb ++ [df]) = listUserFiles u p fdb ∧
      listUserFolders u p (gdb ++ [dg]) = listUserFolders u p gdb := by
  intro u v p fdb gdb df dg huv hdf hdg
  have honly : ∀ (key : String) (db : DB) (d : Doc),
      d ∈ db.filter (fun d0 =>
        decide (List.lookup "user_id" d0 = some (Value.vint u)) &&
        decide (List.lookup key d0 = some (Value.vstr p))) →
      decide (List.lookup "user_id" d = some (Value.vint u)) = true := by
    intro key db d hd
    obtain ⟨_, hpred⟩ := List.mem_filter.mp hd
    simp only [Bool.and_eq_true] at hpred
    exact hpred.1
  have hskip : ∀ (d0 : Doc), List.lookup "user_id" d0 = some (Value.vint v) →
      ∀ key : String, (decide (List.lookup "user_id" d0 = some (Value.vint u)) &&
        decide (List.lookup key d0 = some (Value.vstr p))) = false := by
    intro d0 hd0 key
    have : decide (List.lookup "user_id" d0 = some (Value.vint u)) = false := by
      simp only [decide_eq_false_iff_not, hd0]
      intro hh
      simp only [Option.some.injEq, Value.vint.injEq] at hh
      exact huv hh.symm
    rw [this]
    rfl
  refine ⟨?_, ?_, ?_, ?_⟩
  · rw [List.all_eq_true]
    intro d hd
    exact honly "folder" fdb d hd
  · rw [List.all_eq_true]
    intro d hd
    exact honly "parent" gdb d hd
  · unfold listUserFiles
    rw [List.filter_append]
    rw [List.filter_cons_of_neg, List.filter_nil, List.append_nil]
    simp only [hskip df hdf "folder", Bool.false_eq_true, not_false_eq_true]
  · unfold listUserFolders
    rw [List.filter_append]
    rw [List.filter_cons_of_neg, List.filter_nil, List.append_nil]
    simp only [hskip dg hdg "parent", Bool.false_eq_true, not_false_eq_true]

/-- Witness for C10: owner 1's listings over an empty store, then a
record owned by user 2 is inserted and owner 1's listings are unchanged. -/
theorem claim10_witness :
    (listUserFiles 1 "/" []).all
      (fun d => decide (List.lookup "user_id" d = some (Value.vint 1))) = true ∧
    (listUserFolders 1 "/" []).all
      (fun d => decide (List.lookup "user_id" d = some (Value.vint 1))) = true ∧
    listUserFiles 1 "/" ([] ++ [[("user_id", Value.vint 2)]]) = listUserFiles 1 "/" [] ∧
    listUserFolders 1 "/" ([] ++ [[("user_id", Value.vint 2)]]) = listUserFolders 1 "/" [] :=
  claim10_owner_isolation 1 2 "/" [] [] [("user_id", Value.vint 2)] [("user_id", Value.vint 2)]
    (by decide) rfl rfl
